import Mathlib

/-!
Verification development for the spox/steelix core: the type lattice
(`steelix/_type_system.py`), the attribute representation
(`spox/_attributes.py`), and the propagated-value conversion layer
(`spox/_value_prop.py`).

Machine integers, numpy buffers and Python scalars are shallowly embedded:
numpy dtypes become the enumeration `DType`, array buffers become `NDArray`
records, Python floats are modelled by the rationals they denote (none of the
verified properties exercises floating-point arithmetic), and fallible Python
code (raising constructors and converters) returns `Except`.

The repository snapshot does not contain `_shape.py` (only its importers), nor
spox's own `_type_system.py` (the snapshot has the earlier steelix edition,
which the spec treats as the same type lattice).  The shape algebra and the
`_subtype` test are therefore modelled from the spec, as marked on each such
definition; everything else is translated from the source files.
-/

/-- Numpy scalar classes (`numpy.generic` subclasses) used as tensor element
types, plus the generic `object_` dtype that numpy uses for boxed/text data.
`Tensor.VALID_TYPES` (the keys of `_DTYPE_TO_TENSOR_TYPE`) contains only
distinct leaf scalar classes, never `object_`. -/
inductive DType where
  | bool_
  | int32
  | int64
  | uint64
  | float32
  | float64
  | str_
  | object_
deriving DecidableEq, Repr

/-- Python's `issubclass` restricted to the numpy scalar classes above: the
members of `Tensor.VALID_TYPES` are pairwise unrelated leaf classes, so on
them `issubclass` coincides with class identity. -/
def DType.isSubclass (a b : DType) : Bool := a == b

/-- Membership in `Tensor.VALID_TYPES`: every dtype with an ONNX tensor-type
code, which excludes the generic `object_` dtype. -/
def DType.validElemType : DType → Bool
  | .object_ => false
  | _ => true

/-- Modelled from the spec: a single axis of a shape (`_shape.py` is not in
the snapshot) — a concrete non-negative integer, a symbolic name, or unknown. -/
inductive Dim where
  | concrete (n : Nat)
  | symbolic (s : String)
  | unknown
deriving DecidableEq, Repr

/-- Modelled from the spec: a whole shape — unknown rank, or an ordered list
of axes (rank may be zero for scalars). -/
inductive Shape where
  | unknownRank
  | known (dims : List Dim)
deriving DecidableEq, Repr

/-- Modelled from the spec: the per-axis order used by `Shape.__le__` — an
unknown dimension on the right matches any left dimension; symbolic names
compare by literal string equality; concrete dimensions compare by equality. -/
def Dim.le : Dim → Dim → Bool
  | _, .unknown => true
  | .concrete m, .concrete n => m == n
  | .symbolic a, .symbolic b => a == b
  | _, _ => false

/-- Modelled from the spec: `Shape.__le__` — unknown rank on either side is
comparable to anything; equal known ranks compare elementwise; different known
ranks are incomparable. -/
def Shape.le : Shape → Shape → Bool
  | .unknownRank, _ => true
  | _, .unknownRank => true
  | .known ds1, .known ds2 =>
      ds1.length == ds2.length && (List.zip ds1 ds2).all fun p => Dim.le p.1 p.2

/-- Modelled from the spec: per-axis join — equal dimensions are kept, any
disagreement collapses the axis to unknown. -/
def Dim.join (d1 d2 : Dim) : Dim := if d1 == d2 then d1 else .unknown

/-- Modelled from the spec: `Shape.__or__` — unknown rank on either side, or
differing known ranks, yield unknown rank; equal ranks join elementwise. -/
def Shape.join : Shape → Shape → Shape
  | .known ds1, .known ds2 =>
      if ds1.length == ds2.length then
        .known ((List.zip ds1 ds2).map fun p => Dim.join p.1 p.2)
      else .unknownRank
  | _, _ => .unknownRank

/-- The recursive variant type of `_type_system.py`: the bare `Type()`
instance (`unknown`), `Tensor(elem_type, _shape)`, `Sequence(elem_type)` and
`Optional(elem_type)`.  Dataclass equality is structural, which is exactly
the derived equality here. -/
inductive Ty where
  | unknown
  | tensor (elemType : DType) (shape : Shape)
  | sequence (elemType : Ty)
  | optional (elemType : Ty)
deriving DecidableEq, Repr

/-- The subtype test `s <= t`.  Python dispatches on the class of the left
operand: the base `Type.__le__` (reached exactly when the left side is the
bare `Type()`) returns `self == Type() or other == Type() or self == other`,
hence `true`; each subclass first short-circuits on `other == Type()` and on
structural equality, then requires the same variant and recurses
(`issubclass` on element kinds plus `Shape.le` for `Tensor`). -/
def Ty.le : Ty → Ty → Bool
  | .unknown, _ => true
  | .tensor k1 s1, other =>
      if other == .unknown || other == .tensor k1 s1 then true
      else
        match other with
        | .tensor k2 s2 => DType.isSubclass k1 k2 && Shape.le s1 s2
        | _ => false
  | .sequence e1, other =>
      if other == .unknown || other == .sequence e1 then true
      else
        match other with
        | .sequence e2 => Ty.le e1 e2
        | _ => false
  | .optional e1, other =>
      if other == .unknown || other == .optional e1 then true
      else
        match other with
        | .optional e2 => Ty.le e1 e2
        | _ => false

/-- The join `s | t`.  The base `Type.__or__` (reached exactly when the left
side is the bare `Type()`) returns `self` on structural equality and `Type()`
otherwise — in both cases the unknown type.  `Tensor.__or__` yields `Type()`
on a variant or element-kind mismatch and joins shapes otherwise;
`Sequence.__or__` and `Optional.__or__` recursively join element types. -/
def Ty.or : Ty → Ty → Ty
  | .unknown, _ => .unknown
  | .tensor k1 s1, other =>
      match other with
      | .tensor k2 s2 =>
          if k1 == k2 then .tensor k1 (Shape.join s1 s2) else .unknown
      | _ => .unknown
  | .sequence e1, other =>
      match other with
      | .sequence e2 => .sequence (Ty.or e1 e2)
      | _ => .unknown
  | .optional e1, other =>
      match other with
      | .optional e2 => .optional (Ty.or e1 e2)
      | _ => .unknown

/-- Same top-level variant (both the bare unknown type, both tensors, both
sequences, or both optionals). -/
def Ty.sameVariant : Ty → Ty → Bool
  | .unknown, .unknown => true
  | .tensor _ _, .tensor _ _ => true
  | .sequence _, .sequence _ => true
  | .optional _, .optional _ => true
  | _, _ => false

theorem dimLe_refl (d : Dim) : Dim.le d d = true := by
  cases d <;> simp [Dim.le]

theorem shapeLe_refl (s : Shape) : Shape.le s s = true := by
  cases s with
  | unknownRank => rfl
  | known ds =>
      simp only [Shape.le, beq_self_eq_true, Bool.true_and]
      induction ds with
      | nil => rfl
      | cons a as ih => simpa [dimLe_refl] using ih

theorem dimJoin_self (d : Dim) : Dim.join d d = d := by
  simp [Dim.join]

theorem shapeJoin_self (s : Shape) : Shape.join s s = s := by
  cases s with
  | unknownRank => rfl
  | known ds =>
      simp only [Shape.join, beq_self_eq_true, if_true]
      congr 1
      induction ds with
      | nil => rfl
      | cons a as ih => simpa [dimJoin_self] using ih

/-- Claim C2 (counterexample): the claim says that for Types of differing
variants, `s <= t` is false unless `t` is the Unknown type.  The pair
`s = Unknown`, `t = Tensor(int64, ())` has differing variants and `t` is not
Unknown, yet `s <= t` is `true`: the base `Type.__le__` returns true whenever
the left side is the bare `Type()`. -/
theorem unknown_le_tensor_cex :
    Ty.sameVariant .unknown (.tensor .int64 (.known [])) = false ∧
    (Ty.tensor .int64 (.known []) ≠ .unknown) ∧
    Ty.le .unknown (.tensor .int64 (.known [])) = true := by
  refine ⟨rfl, ?_, rfl⟩
  decide

/-- Claim C2 (amended): `x <= Unknown` holds for every Type `x`, and
`Unknown <= x` also holds for every `x`; for every pair of Types of differing
variants, `s <= t` is true exactly when one of the two sides is the Unknown
type. -/
theorem le_mismatched_variants :
    (∀ x : Ty, Ty.le x .unknown = true) ∧
    (∀ x : Ty, Ty.le .unknown x = true) ∧
    (∀ s t : Ty, Ty.sameVariant s t = false →
      Ty.le s t = (s == .unknown || t == .unknown)) := by
  refine ⟨?_, ?_, ?_⟩
  · intro x; cases x <;> rfl
  · intro x; rfl
  · intro s t h
    cases s <;> cases t <;> simp_all [Ty.le, Ty.sameVariant]

/-- Witness for `le_mismatched_variants` at the concrete mismatched pair
`Sequence(Unknown)` versus `Tensor(int64, ())`. -/
theorem le_mismatched_variants_witness :
    Ty.le (.sequence .unknown) (.tensor .int64 (.known [])) =
      ((Ty.sequence .unknown) == .unknown || (Ty.tensor .int64 (.known [])) == .unknown) :=
  le_mismatched_variants.2.2 (.sequence .unknown) (.tensor .int64 (.known [])) (by decide)

/-- Claim C3: for Tensor types `s = Tensor(k1, sh1)` and `t = Tensor(k2, sh2)`
(`t` is a Tensor, hence never the Unknown type), `s <= t` holds if and only if
the element kinds are identical and `sh1 <= sh2` in the shape order.
(`issubclass` on `Tensor.VALID_TYPES` members is class identity, modelled by
`DType.isSubclass = (· == ·)`.) -/
theorem tensor_le_iff (k1 k2 : DType) (s1 s2 : Shape) :
    Ty.le (.tensor k1 s1) (.tensor k2 s2) = ((k1 == k2) && Shape.le s1 s2) := by
  simp only [Ty.le]
  by_cases h : Ty.tensor k2 s2 = Ty.tensor k1 s1
  · have hk : k2 = k1 := by injection h
    have hs : s2 = s1 := by injection h
    subst hk; subst hs
    simp [DType.isSubclass, shapeLe_refl]
  · have hb : (Ty.tensor k2 s2 == Ty.tensor k1 s1) = false := beq_false_of_ne h
    simp [hb, DType.isSubclass]

theorem Ty.or_self (s : Ty) : Ty.or s s = s := by
  induction s with
  | unknown => rfl
  | tensor k sh => simp [Ty.or, shapeJoin_self]
  | sequence e ih => simp [Ty.or, ih]
  | optional e ih => simp [Ty.or, ih]

/-- Claim C4: the join `s | t` returns `s` when `s == t`; returns the Unknown
type on mismatched variants; recursively joins element types for
Sequence/Optional; for Tensors it joins shapes when the element kinds agree
and yields Unknown on an element-kind mismatch; and the two literal examples
from the spec compute as stated. -/
theorem type_join_spec :
    (∀ s : Ty, Ty.or s s = s) ∧
    (∀ s t : Ty, Ty.sameVariant s t = false → Ty.or s t = .unknown) ∧
    (∀ e1 e2 : Ty, Ty.or (.sequence e1) (.sequence e2) = .sequence (Ty.or e1 e2)) ∧
    (∀ e1 e2 : Ty, Ty.or (.optional e1) (.optional e2) = .optional (Ty.or e1 e2)) ∧
    (∀ (k1 k2 : DType) (s1 s2 : Shape),
      Ty.or (.tensor k1 s1) (.tensor k2 s2) =
        if k1 = k2 then .tensor k1 (Shape.join s1 s2) else .unknown) ∧
    Ty.or (.tensor .int64 (.known [.concrete 3, .concrete 5]))
        (.tensor .int64 (.known [])) = .tensor .int64 .unknownRank ∧
    Ty.or (.tensor .int64 (.known [.symbolic "M", .concrete 3]))
        (.tensor .int64 (.known [.symbolic "M", .symbolic "N"])) =
      .tensor .int64 (.known [.symbolic "M", .unknown]) := by
  refine ⟨Ty.or_self, ?_, fun _ _ => rfl, fun _ _ => rfl, ?_, by decide, by decide⟩
  · intro s t h
    cases s <;> cases t <;> simp_all [Ty.or, Ty.sameVariant]
  · intro k1 k2 s1 s2
    by_cases hk : k1 = k2 <;> simp [Ty.or, hk]

/-- Witness for `type_join_spec` at the concrete mismatched-variant pair
`Unknown | Tensor(int64, ())`. -/
theorem type_join_spec_witness :
    Ty.or .unknown (.tensor .int64 (.known [])) = .unknown :=
  type_join_spec.2.1 .unknown (.tensor .int64 (.known [])) (by decide)

/-- A Python scalar stored in a numpy buffer: a number (Python ints/floats
modelled by the rationals they denote) or a text object. -/
inductive PyLit where
  | num (q : Rat)
  | text (s : String)
deriving DecidableEq, Repr

/-- A numpy array buffer: its dtype, its shape, and its (flattened) payload.
The `__post_init__` renormalisation of platform-dependent dtype aliases
(`ulonglong` versus `uint64`, etc.) is the identity here because `DType`
already has one value per logical dtype. -/
structure NDArray where
  dtype : DType
  shape : List Nat
  data : List PyLit
deriving DecidableEq, Repr

/-- The `astype` conversion to the numpy `str` dtype, as applied by `from_ort_value` to
object-dtype buffers: the text payload is retagged with the `str_` dtype. -/
def NDArray.astypeStr (a : NDArray) : NDArray := { a with dtype := .str_ }

/-!
The `PropValue` wrapper of `_value_prop.py` paired with its payload
(`PropValueType`): ndarray for Tensor, list of `PropValue` for Sequence,
a nested `PropValue` for Optional-Some, and `None` for Optional-Nothing.
-/
mutual
inductive PropValue where
  | mk (type : Ty) (value : PropVal)
inductive PropVal where
  | arr (a : NDArray)
  | list (vs : List PropValue)
  | some (v : PropValue)
  | none
end

def PropValue.type : PropValue → Ty
  | .mk t _ => t

def PropValue.val : PropValue → PropVal
  | .mk _ v => v

/-- The raw-value union shared by the two backends: `RefValue` is
`np.ndarray | list | float | None` and `ORTValue` is `np.ndarray | list |
None` (a bare Python float is never a legal ORT value — `from_ort_value`
raises on it). -/
inductive RefValue where
  | arr (a : NDArray)
  | list (vs : List RefValue)
  | scalar (q : Rat)
  | none

/-- Modelled from the spec: spox's `Type._subtype` membership test (spox's
`_type_system.py` is not in the snapshot; the steelix edition it descends
from defines the test as the `<=` comparison). -/
def Ty.subtype (s t : Ty) : Bool := Ty.le s t

/-- The validation routine `PropValue.check`: for a Tensor type the payload must be an ndarray with
`Shape.from_simple(value.shape) <= declared shape`, and its dtype must equal
the declared dtype, except that an `object`-dtype payload is accepted when
the declared dtype is `str`; for a Sequence, the payload must be a list whose
every element's declared type `_subtype`s the declared element type; for an
Optional, the payload must be `None` or a `PropValue`; for the unknown type a
non-fatal `InferenceWarning` is emitted (not modelled) and the result is
`true`. -/
def check (typ : Ty) (val : PropVal) : Bool :=
  match typ, val with
  | .tensor k sh, .arr a =>
      if !(Shape.le (.known (a.shape.map .concrete)) sh) then false
      else if a.dtype == .object_ && k == .str_ then true
      else a.dtype == k
  | .tensor _ _, _ => false
  | .sequence e, .list vs => vs.all fun v => Ty.subtype v.type e
  | .sequence _, _ => false
  | .optional _, .none => true
  | .optional _, .some _ => true
  | .optional _, _ => false
  | .unknown, _ => true

/-- The strict-construction error of `PropValue.__post_init__` (a
`ValueError` in the source; `StructuralMismatch` in the spec's vocabulary). -/
inductive MkErr where
  | structuralMismatch
deriving DecidableEq, Repr

/-- Construction, `PropValue.__post_init__`, as a smart constructor, parameterised by the
process-wide `VALUE_PROP_STRICT_CHECK` flag: in strict mode a payload failing
`check` raises, otherwise construction always succeeds.  (The numeric-dtype
alias renormalisation is the identity in this model.) -/
def PropValue.make (strict : Bool) (typ : Ty) (val : PropVal) :
    Except MkErr PropValue :=
  if strict && !(check typ val) then .error .structuralMismatch
  else .ok (.mk typ val)

/-!
`to_ref_value` / `to_ort_value`.  Both dispatch on the runtime class of
the payload: `None` maps to an absent value; an Optional-Some payload maps to
a singleton list wrapping the inner conversion for the reference backend but
to `self.value.to_ref_value()` (no wrapping) for the ORT backend; a Sequence
payload maps elementwise through `to_ref_value` for both; an ndarray maps to
itself.
-/
mutual
def PropValue.toRef : PropValue → RefValue
  | .mk _ v => PropVal.toRef v
def PropVal.toRef : PropVal → RefValue
  | .arr a => .arr a
  | .list vs => .list (toRefList vs)
  | .some v => .list [v.toRef]
  | .none => .none
def toRefList : List PropValue → List RefValue
  | [] => []
  | v :: vs => v.toRef :: toRefList vs
end

def PropVal.toOrt : PropVal → RefValue
  | .arr a => .arr a
  | .list vs => .list (toRefList vs)
  | .some v => v.toRef
  | .none => .none

def PropValue.toOrt : PropValue → RefValue
  | .mk _ v => PropVal.toOrt v

/-- Conversion failures: `unwrap_sequence` raising on a non-Sequence type,
and `from_ort_value` raising on a raw value it has no handler for. -/
inductive VErr where
  | notSequence
  | noOrtHandler
deriving DecidableEq, Repr

/-- The singleton-unwrapping preamble of `from_ref_value`: when the declared
type is not a Sequence and the raw value is a one-element list, the element
replaces the list. -/
def unwrapSingleton (typ : Ty) (value : RefValue) : RefValue :=
  match typ, value with
  | .sequence _, v => v
  | _, .list [x] => x
  | _, v => v

def exceptMap (f : α → Except ε β) : List α → Except ε (List β)
  | [] => .ok []
  | a :: as => do
      let b ← f a
      let bs ← exceptMap f as
      .ok (b :: bs)

/-- The parser `from_ref_value`: after singleton unwrapping, `None` builds an
Optional-Nothing of the declared type; an Optional declared type recurses on
the element type and wraps the result; a list parses elementwise against
`typ.unwrap_sequence().elem_type` (raising when the declared type is not a
Sequence); anything else is wrapped by `np.array` — the identity on an
ndarray, and a 0-d `float64` array on a bare Python float. -/
def fromRef (typ : Ty) (value0 : RefValue) : Except VErr PropValue :=
  match typ, unwrapSingleton typ value0 with
  | typ, .none => .ok (.mk typ .none)
  | .optional e, value =>
      (fromRef e value).map fun inner => .mk (.optional e) (.some inner)
  | .sequence e, .list vs =>
      (exceptMap (fun v => fromRef e v) vs).map fun ps => .mk (.sequence e) (.list ps)
  | _, .list _ => .error .notSequence
  | typ, .arr a => .ok (.mk typ (.arr a))
  | typ, .scalar q => .ok (.mk typ (.arr ⟨.float64, [], [.num q]⟩))

/-- The parser `from_ort_value`: `None` builds an Optional-Nothing; an Optional declared
type recurses on the element type with the same raw value and wraps the
result; a list parses elementwise against `typ.unwrap_sequence().elem_type`
(raising when the declared type is not a Sequence); an ndarray is taken as
the payload, with an `object`-dtype buffer first `astype`d to `str`; any
other raw value raises. -/
def fromOrt (typ : Ty) (value : RefValue) : Except VErr PropValue :=
  match typ, value with
  | typ, .none => .ok (.mk typ .none)
  | .optional e, value =>
      (fromOrt e value).map fun inner => .mk (.optional e) (.some inner)
  | .sequence e, .list vs =>
      (exceptMap (fun v => fromOrt e v) vs).map fun ps => .mk (.sequence e) (.list ps)
  | _, .list _ => .error .notSequence
  | typ, .arr a =>
      .ok (.mk typ (.arr (if a.dtype == .object_ then a.astypeStr else a)))
  | _, .scalar _ => .error .noOrtHandler

/-!
The subclass of propagated values on which both backend round-trips are
provably the identity: the declared types match the payloads exactly
(each sequence element's declared type equals the declared element type),
tensor buffers avoid the generic `object` dtype, and Optional payloads occur
only at the top level.
-/
mutual
def firstOrder : Ty → PropVal → Bool
  | .tensor k sh, .arr a => check (.tensor k sh) (.arr a) && !(a.dtype == .object_)
  | .sequence e, .list vs => firstOrderList e vs
  | _, _ => false
def firstOrderList (e : Ty) : List PropValue → Bool
  | [] => true
  | .mk t v :: vs => (t == e) && firstOrder e v && firstOrderList e vs
end

def rtSafe : Ty → PropVal → Bool
  | .optional _, .none => true
  | .optional e, .some (.mk t v) => (t == e) && firstOrder e v
  | typ, val => firstOrder typ val

theorem tyLe_refl (t : Ty) : Ty.le t t = true := by
  cases t <;> simp [Ty.le]

theorem firstOrder_shape {e : Ty} {w : PropVal} (h : firstOrder e w = true) :
    (∃ k sh a, e = .tensor k sh ∧ w = .arr a ∧ a.dtype ≠ .object_) ∨
    (∃ e' vs, e = .sequence e' ∧ w = .list vs) := by
  cases e <;> cases w <;> simp [firstOrder] at h
  case tensor.arr k sh a =>
    exact .inl ⟨k, sh, a, rfl, rfl, by simpa using h.2⟩
  case sequence.list e' vs =>
    exact .inr ⟨e', vs, rfl, rfl⟩

theorem toRef_not_none {e : Ty} {w : PropVal} (h : firstOrder e w = true) :
    (∃ a, PropVal.toRef w = .arr a) ∨ (∃ rs, PropVal.toRef w = .list rs) := by
  rcases firstOrder_shape h with ⟨k, sh, a, _, rfl, _⟩ | ⟨e', vs, _, rfl⟩
  · exact .inl ⟨a, rfl⟩
  · exact .inr ⟨toRefList vs, rfl⟩

theorem toOrt_eq_toRef_of_firstOrder {e : Ty} {w : PropVal}
    (h : firstOrder e w = true) : PropVal.toOrt w = PropVal.toRef w := by
  rcases firstOrder_shape h with ⟨k, sh, a, _, rfl, _⟩ | ⟨e', vs, _, rfl⟩ <;> rfl

theorem roundtrip_firstOrder_aux :
    ∀ (n : Nat) (e : Ty) (w : PropVal), sizeOf w ≤ n → firstOrder e w = true →
      fromRef e (PropVal.toRef w) = .ok (.mk e w) ∧
      fromOrt e (PropVal.toRef w) = .ok (.mk e w) := by
  intro n
  induction n with
  | zero =>
      intro e w hw _
      exfalso
      cases w <;> simp at hw
  | succ n ih =>
      intro e w hw h
      rcases firstOrder_shape h with ⟨k, sh, a, rfl, rfl, hobj⟩ | ⟨e', vs, rfl, rfl⟩
      · have hb : (a.dtype == DType.object_) = false := beq_eq_false_iff_ne.mpr hobj
        constructor
        · rfl
        · simp [PropVal.toRef, fromOrt, hb]
      · have hvs : firstOrderList e' vs = true := by simpa [firstOrder] using h
        have hsz : sizeOf vs ≤ n := by
          simp [PropVal.list.sizeOf_spec] at hw
          omega
        have key : ∀ (vs' : List PropValue), sizeOf vs' ≤ sizeOf vs →
            firstOrderList e' vs' = true →
            exceptMap (fun v => fromRef e' v) (toRefList vs') = .ok vs' ∧
            exceptMap (fun v => fromOrt e' v) (toRefList vs') = .ok vs' := by
          intro vs'
          induction vs' with
          | nil => intro _ _; constructor <;> rfl
          | cons v rest ihl =>
              rcases v with ⟨t, w'⟩
              intro hsz' hfo
              simp only [firstOrderList, Bool.and_eq_true, beq_iff_eq] at hfo
              obtain ⟨⟨h1, h2⟩, h3⟩ := hfo
              have hw' : sizeOf w' ≤ n := by
                simp [List.cons.sizeOf_spec, PropValue.mk.sizeOf_spec] at hsz'
                omega
              have hrest : sizeOf rest ≤ sizeOf vs := by
                simp [List.cons.sizeOf_spec] at hsz'
                omega
              have hmain := ih e' w' hw' h2
              have htail := ihl hrest h3
              subst h1
              constructor <;>
                simp [toRefList, exceptMap, PropValue.toRef, hmain.1, hmain.2,
                  htail.1, htail.2, Except.bind] <;> rfl
        have hkey := key vs le_rfl hvs
        constructor
        · rw [PropVal.toRef, fromRef.eq_def]
          simp [unwrapSingleton, hkey.1, Except.map]
        · rw [PropVal.toRef, fromOrt.eq_def]
          simp [hkey.2, Except.map]

theorem firstOrderList_check (e : Ty) :
    ∀ vs, firstOrderList e vs = true →
      (vs.all fun v => Ty.subtype v.type e) = true := by
  intro vs
  induction vs with
  | nil => intro _; rfl
  | cons v rest ih =>
      rcases v with ⟨t, w⟩
      intro hl
      have h2 : ((t == e) && firstOrder e w && firstOrderList e rest) = true := hl
      simp only [Bool.and_eq_true, beq_iff_eq] at h2
      obtain ⟨⟨ht, _⟩, hrest⟩ := h2
      subst ht
      rw [List.all_cons, Bool.and_eq_true]
      exact ⟨tyLe_refl t, ih hrest⟩

/-- Claim C1 (counterexample): the claim quantifies over every `PropValue`
with `check() = true`.  The Optional-Some value wrapping an Optional-Nothing,
`PropValue(Optional(Optional(Tensor(float64, ()))),
PropValue(Optional(Tensor(float64, ())), None))`, passes `check` (the
Optional clause accepts any nested `PropValue`), but its reference round-trip
collapses to the outer Optional-Nothing: `to_ref_value` produces `[None]`,
and `from_ref_value` strips the singleton wrapper and parses the remaining
`None` as the outer Nothing. -/
theorem roundtrip_cex :
    check (.optional (.optional (.tensor .float64 (.known []))))
        (.some (.mk (.optional (.tensor .float64 (.known []))) .none)) = true ∧
    fromRef (.optional (.optional (.tensor .float64 (.known []))))
        (PropValue.toRef (.mk (.optional (.optional (.tensor .float64 (.known []))))
          (.some (.mk (.optional (.tensor .float64 (.known []))) .none)))) =
      .ok (.mk (.optional (.optional (.tensor .float64 (.known [])))) .none) ∧
    PropValue.mk (.optional (.optional (.tensor .float64 (.known [])))) .none ≠
      .mk (.optional (.optional (.tensor .float64 (.known []))))
        (.some (.mk (.optional (.tensor .float64 (.known []))) .none)) := by
  refine ⟨rfl, rfl, ?_⟩
  intro hx
  injection hx with h1 h2
  exact PropVal.noConfusion h2

/-- Claim C1 (amended): the round-trip
`from_backend(type, to_backend(v)) == v` holds for both backends on every
validly-typed value of the first-order fragment `rtSafe`: each sequence
element's declared type equals the declared element type, tensor payloads
avoid the generic `object` dtype, and Optional payloads occur only at the top
level (the unrestricted claim fails, see the counterexample). -/
theorem prop_roundtrip_amended (v : PropValue)
    (h : rtSafe v.type v.val = true) :
    check v.type v.val = true ∧
    fromRef v.type v.toRef = .ok v ∧
    fromOrt v.type v.toOrt = .ok v := by
  rcases v with ⟨typ, val⟩
  simp only [PropValue.type, PropValue.val] at h
  cases val with
  | none =>
      cases typ with
      | optional e => exact ⟨rfl, rfl, rfl⟩
      | unknown => exact Bool.noConfusion h
      | tensor k sh => exact Bool.noConfusion h
      | sequence e => exact Bool.noConfusion h
  | arr a =>
      cases typ with
      | tensor k sh =>
          have hf : firstOrder (.tensor k sh) (.arr a) = true := h
          have haux := roundtrip_firstOrder_aux (sizeOf (PropVal.arr a))
            (.tensor k sh) (.arr a) le_rfl hf
          have hc : check (.tensor k sh) (.arr a) = true := by
            have h2 : (check (.tensor k sh) (.arr a) && !(a.dtype == .object_)) = true := hf
            rw [Bool.and_eq_true] at h2
            exact h2.1
          exact ⟨hc, haux.1, haux.2⟩
      | unknown => exact Bool.noConfusion h
      | sequence e => exact Bool.noConfusion h
      | optional e => exact Bool.noConfusion h
  | list vs =>
      cases typ with
      | sequence e =>
          have hf : firstOrder (.sequence e) (.list vs) = true := h
          have haux := roundtrip_firstOrder_aux (sizeOf (PropVal.list vs))
            (.sequence e) (.list vs) le_rfl hf
          have hl : firstOrderList e vs = true := hf
          exact ⟨firstOrderList_check e vs hl, haux.1, haux.2⟩
      | unknown => exact Bool.noConfusion h
      | tensor k sh => exact Bool.noConfusion h
      | optional e => exact Bool.noConfusion h
  | some v' =>
      rcases v' with ⟨t, w⟩
      cases typ with
      | optional e =>
          have h2 : ((t == e) && firstOrder e w) = true := h
          rw [Bool.and_eq_true] at h2
          obtain ⟨hte, hfw⟩ := h2
          have ht : t = e := by simpa using hte
          subst ht
          have haux := roundtrip_firstOrder_aux (sizeOf w) t w le_rfl hfw
          refine ⟨rfl, ?_, ?_⟩
          · have hgoal : PropValue.toRef (.mk (.optional t) (.some (.mk t w))) =
                .list [PropVal.toRef w] := rfl
            rw [hgoal]
            rcases toRef_not_none hfw with ⟨a, ha⟩ | ⟨rs, hrs⟩
            · rw [ha]
              rw [ha] at haux
              rw [fromRef.eq_def]
              simp [PropValue.type, unwrapSingleton, haux.1, Except.map]
            · rw [hrs]
              rw [hrs] at haux
              rw [fromRef.eq_def]
              simp [PropValue.type, unwrapSingleton, haux.1, Except.map]
          · have hgoal : PropValue.toOrt (.mk (.optional t) (.some (.mk t w))) =
                PropVal.toRef w := rfl
            rw [hgoal]
            rcases toRef_not_none hfw with ⟨a, ha⟩ | ⟨rs, hrs⟩
            · rw [ha]
              rw [ha] at haux
              rw [fromOrt.eq_def]
              simp [PropValue.type, haux.2, Except.map]
            · rw [hrs]
              rw [hrs] at haux
              rw [fromOrt.eq_def]
              simp [PropValue.type, haux.2, Except.map]
      | unknown => exact Bool.noConfusion h
      | tensor k sh => exact Bool.noConfusion h
      | sequence e => exact Bool.noConfusion h

/-- The concrete input of the witness for `prop_roundtrip_amended`: an
Optional-Some wrapping a one-element int64 tensor sequence. -/
def rtWitnessVal : PropValue :=
  .mk (.optional (.sequence (.tensor .int64 .unknownRank)))
    (.some (.mk (.sequence (.tensor .int64 .unknownRank))
      (.list [.mk (.tensor .int64 .unknownRank)
        (.arr ⟨.int64, [2], [.num 1, .num 2]⟩)])))

/-- Witness for `prop_roundtrip_amended` at `rtWitnessVal`. -/
theorem prop_roundtrip_amended_witness :
    rtSafe rtWitnessVal.type rtWitnessVal.val = true ∧
    (check rtWitnessVal.type rtWitnessVal.val = true ∧
      fromRef rtWitnessVal.type rtWitnessVal.toRef = .ok rtWitnessVal ∧
      fromOrt rtWitnessVal.type rtWitnessVal.toOrt = .ok rtWitnessVal) :=
  ⟨rfl, prop_roundtrip_amended rtWitnessVal rfl⟩

/-- The validity condition of claim C7 stated from the claim's words, for
comparison with `check`: a Tensor payload is an array of compatible shape
whose element kind matches (object-kind text accepted when the declared kind
is text); a Sequence payload is a list whose every element validates against
the declared element type; an Optional payload is absent or a validly-typed
nested `PropValue` — one whose own `check` holds. -/
def CheckClaim : Ty → PropVal → Prop
  | .tensor k sh, val =>
      ∃ a, val = .arr a ∧
        Shape.le (.known (a.shape.map .concrete)) sh = true ∧
        (a.dtype = k ∨ (a.dtype = .object_ ∧ k = .str_))
  | .sequence e, val =>
      ∃ vs, val = .list vs ∧ ∀ v ∈ vs, Ty.subtype v.type e = true
  | .optional _, val =>
      val = .none ∨ ∃ v, val = .some v ∧ check v.type v.val = true
  | .unknown, _ => True

/-- The amended validity condition: as in claim C7 except that the Optional
clause accepts any nested `PropValue` — `check` does not re-validate the
nested value. -/
def CheckAmended : Ty → PropVal → Prop
  | .tensor k sh, val =>
      ∃ a, val = .arr a ∧
        Shape.le (.known (a.shape.map .concrete)) sh = true ∧
        (a.dtype = k ∨ (a.dtype = .object_ ∧ k = .str_))
  | .sequence e, val =>
      ∃ vs, val = .list vs ∧ ∀ v ∈ vs, Ty.subtype v.type e = true
  | .optional _, val =>
      val = .none ∨ ∃ v, val = .some v
  | .unknown, _ => True

/-- Claim C7 (counterexample): `check` accepts an Optional payload that is
any `PropValue`, without re-validating it.  The Optional-Some wrapping the
invalid `PropValue(Tensor(int64, (3,)), None)` passes `check` even though the
nested value fails its own `check`, contradicting the claim's "validly-typed
nested PropValue" clause. -/
theorem check_optional_cex :
    check (.optional (.tensor .int64 (.known [.concrete 3])))
        (.some (.mk (.tensor .int64 (.known [.concrete 3])) .none)) = true ∧
    check (.tensor .int64 (.known [.concrete 3])) .none = false ∧
    ¬ CheckClaim (.optional (.tensor .int64 (.known [.concrete 3])))
        (.some (.mk (.tensor .int64 (.known [.concrete 3])) .none)) := by
  refine ⟨rfl, rfl, ?_⟩
  rintro (h | ⟨v, hv, hc⟩)
  · exact PropVal.noConfusion h
  · injection hv with h1
    subst h1
    exact Bool.noConfusion hc

/-- Claim C7 (amended): for every declared Tensor, Sequence or Optional type,
`check` holds exactly under the claim's conditions, weakened in the Optional
clause to accept any nested `PropValue` (nested validity is not re-checked;
likewise the Sequence clause compares declared element types only). -/
theorem check_characterisation (typ : Ty) (val : PropVal) (h : typ ≠ .unknown) :
    check typ val = true ↔ CheckAmended typ val := by
  cases typ with
  | unknown => exact absurd rfl h
  | tensor k sh =>
      cases val <;> simp [check, CheckAmended]
      intro _
      exact Or.comm
  | sequence e =>
      cases val <;> simp [check, CheckAmended, List.all_eq_true]
  | optional e =>
      cases val <;> simp [check, CheckAmended]

/-- Witness for `check_characterisation` at the Optional-Nothing value of a
concrete Optional type. -/
theorem check_characterisation_witness :
    (Ty.optional (.tensor .int64 .unknownRank) ≠ .unknown) ∧
    (check (.optional (.tensor .int64 .unknownRank)) .none = true ↔
      CheckAmended (.optional (.tensor .int64 .unknownRank)) .none) :=
  ⟨by decide, check_characterisation (.optional (.tensor .int64 .unknownRank)) .none (by decide)⟩

/-- Claim C8: constructing any `PropValue` whose payload fails `check` raises
exactly when the strict-validation flag is set and is silently accepted when
it is not — a tensor buffer of shape `(4,)` declared with shape `(3,)` is
such a payload; a declared Unknown type always passes validation in both
modes (with a non-fatal warning, which `check` models as an unconditional
`true`), never failing. -/
theorem strict_flag_behavior :
    (∀ (typ : Ty) (val : PropVal), check typ val = false →
      PropValue.make true typ val = .error .structuralMismatch ∧
      PropValue.make false typ val = .ok (.mk typ val)) ∧
    check (.tensor .int64 (.known [.concrete 3]))
        (.arr ⟨.int64, [4], [.num 1, .num 2, .num 3, .num 4]⟩) = false ∧
    (∀ (strict : Bool) (val : PropVal),
      check .unknown val = true ∧
      PropValue.make strict .unknown val = .ok (.mk .unknown val)) := by
  refine ⟨?_, rfl, ?_⟩
  · intro typ val h
    constructor
    · simp [PropValue.make, h]
    · simp [PropValue.make]
  · intro strict val
    refine ⟨rfl, ?_⟩
    simp [PropValue.make, check]

/-- Witness for `strict_flag_behavior` at the claim's example payload: a
shape-`(4,)` int64 buffer declared with shape `(3,)`. -/
theorem strict_flag_behavior_witness :
    check (.tensor .int64 (.known [.concrete 3]))
        (.arr ⟨.int64, [4], [.num 1, .num 2, .num 3, .num 4]⟩) = false ∧
    (PropValue.make true (.tensor .int64 (.known [.concrete 3]))
        (.arr ⟨.int64, [4], [.num 1, .num 2, .num 3, .num 4]⟩) =
      .error .structuralMismatch ∧
    PropValue.make false (.tensor .int64 (.known [.concrete 3]))
        (.arr ⟨.int64, [4], [.num 1, .num 2, .num 3, .num 4]⟩) =
      .ok (.mk (.tensor .int64 (.known [.concrete 3]))
        (.arr ⟨.int64, [4], [.num 1, .num 2, .num 3, .num 4]⟩))) :=
  ⟨rfl, strict_flag_behavior.1 (.tensor .int64 (.known [.concrete 3]))
    (.arr ⟨.int64, [4], [.num 1, .num 2, .num 3, .num 4]⟩) rfl⟩

/-- Payload class test: is this payload an Optional-Some (`PropValue`)
payload? -/
def PropVal.isSome : PropVal → Bool
  | .some _ => true
  | _ => false

/-- Claim C9 (counterexample): the claim says the ORT conversion of an
Optional-Some produces the converted inner value directly, with no wrapping.
For the doubly-nested Optional-Some value, `to_ort_value` calls the inner
value's `to_ref_value` and therefore produces the one-element-list-wrapped
form, not the inner value's own ORT conversion. -/
theorem ort_optional_cex :
    PropValue.toOrt (.mk (.optional (.optional (.tensor .float64 (.known []))))
        (.some (.mk (.optional (.tensor .float64 (.known [])))
          (.some (.mk (.tensor .float64 (.known []))
            (.arr ⟨.float64, [], [.num 1]⟩)))))) =
      .list [.arr ⟨.float64, [], [.num 1]⟩] ∧
    PropValue.toOrt (.mk (.optional (.tensor .float64 (.known [])))
        (.some (.mk (.tensor .float64 (.known []))
          (.arr ⟨.float64, [], [.num 1]⟩)))) =
      .arr ⟨.float64, [], [.num 1]⟩ ∧
    RefValue.list [.arr ⟨.float64, [], [.num 1]⟩] ≠
      .arr ⟨.float64, [], [.num 1]⟩ := by
  refine ⟨rfl, rfl, ?_⟩
  intro h
  exact RefValue.noConfusion h

/-- Claim C9 (amended): an absent Optional converts to an absent value under
both backends; the reference conversion of an Optional-Some is a one-element
list wrapping the inner conversion; the ORT conversion of an Optional-Some is
the inner value's reference conversion, which coincides with the inner
value's own ORT conversion (no wrapping) whenever the inner payload is not
itself an Optional-Some. -/
theorem optional_conversion_amended :
    (PropVal.toRef .none = .none) ∧
    (PropVal.toOrt .none = .none) ∧
    (∀ (t : Ty) (v : PropVal),
      PropVal.toRef (.some (.mk t v)) = .list [PropVal.toRef v]) ∧
    (∀ (t : Ty) (v : PropVal),
      PropVal.toOrt (.some (.mk t v)) = PropVal.toRef v) ∧
    (∀ (t : Ty) (v : PropVal), v.isSome = false →
      PropVal.toOrt (.some (.mk t v)) = PropVal.toOrt v) := by
  refine ⟨rfl, rfl, fun _ _ => rfl, fun _ _ => rfl, ?_⟩
  intro t v hv
  cases v with
  | arr a => rfl
  | list vs => rfl
  | none => rfl
  | some v' => exact Bool.noConfusion hv

/-- Witness for `optional_conversion_amended` at an Optional-Some wrapping a
tensor payload. -/
theorem optional_conversion_amended_witness :
    (PropVal.arr ⟨.float64, [], [.num 1]⟩).isSome = false ∧
    PropVal.toOrt (.some (.mk (.tensor .float64 (.known []))
        (.arr ⟨.float64, [], [.num 1]⟩))) =
      PropVal.toOrt (.arr ⟨.float64, [], [.num 1]⟩) :=
  ⟨rfl, optional_conversion_amended.2.2.2.2 (.tensor .float64 (.known []))
    (.arr ⟨.float64, [], [.num 1]⟩) rfl⟩

/-- The `AttributeProto.AttributeType` discriminants used by
`_attributes.py`. -/
inductive AttrTag where
  | FLOAT
  | INT
  | STRING
  | TENSOR
  | SPARSE_TENSOR
  | GRAPH
  | TYPE_PROTO
  | FLOATS
  | INTS
  | STRINGS
  | TENSORS
  | SPARSE_TENSORS
  | GRAPHS
  | TYPE_PROTOS
deriving DecidableEq, Repr

/-- Python attribute payloads as classified by `_deduce_type`: scalars
(`int`, `float`, `str`, `bytes`), the onnx protobuf objects (modelled as
atoms), and iterables (tuples/lists).  Raw `np.ndarray` payloads
(`AttrTensor`/`AttrTensors`) are outside this fragment. -/
inductive PyValue where
  | int (n : Int)
  | float (q : Rat)
  | str (s : String)
  | bytes (s : String)
  | tensorProto (id : Nat)
  | sparseTensorProto (id : Nat)
  | graphProto (id : Nat)
  | typeProto (id : Nat)
  | tuple (vs : List PyValue)

/-- The test `issubclass(type(v), numbers.Integral)`: among the modelled payloads,
only `int`. -/
def PyValue.isIntegralClass : PyValue → Bool
  | .int _ => true
  | _ => false

/-- The test `issubclass(type(v), numbers.Real)`: Python ints and floats are both
`Real`. -/
def PyValue.isRealClass : PyValue → Bool
  | .int _ => true
  | .float _ => true
  | _ => false

def PyValue.isStrBytesClass : PyValue → Bool
  | .str _ => true
  | .bytes _ => true
  | _ => false

def PyValue.isTensorClass : PyValue → Bool
  | .tensorProto _ => true
  | _ => false

def PyValue.isSparseClass : PyValue → Bool
  | .sparseTensorProto _ => true
  | _ => false

def PyValue.isGraphClass : PyValue → Bool
  | .graphProto _ => true
  | _ => false

def PyValue.isTypeClass : PyValue → Bool
  | .typeProto _ => true
  | _ => false

/-- The `ValueError`s of `_deduce_type`: an empty iterable cannot be
kind-deduced, and an iterable whose element classes match no candidate kind
is rejected.  (A payload of a class outside the modelled fragment raises
`TypeError`; such payloads are not representable here.) -/
inductive DeduceError where
  | emptyIterable
  | unmatchedIterable
deriving DecidableEq, Repr

/-- Kind deduction, `_deduce_type`: singular cases first (`Integral` before `Real`, text
before the protobuf classes), then the iterable case, which tries the
candidate element kinds in order — `Integral`, `Real`, text, `TensorProto`,
`SparseTensorProto`, `GraphProto`, `TypeProto` — and accepts the first one
containing every element's class. -/
def deduceType : PyValue → Except DeduceError AttrTag
  | .int _ => .ok .INT
  | .float _ => .ok .FLOAT
  | .str _ => .ok .STRING
  | .bytes _ => .ok .STRING
  | .tensorProto _ => .ok .TENSOR
  | .sparseTensorProto _ => .ok .SPARSE_TENSOR
  | .graphProto _ => .ok .GRAPH
  | .typeProto _ => .ok .TYPE_PROTO
  | .tuple vs =>
      if vs.isEmpty then .error .emptyIterable
      else if vs.all PyValue.isIntegralClass then .ok .INTS
      else if vs.all PyValue.isRealClass then .ok .FLOATS
      else if vs.all PyValue.isStrBytesClass then .ok .STRINGS
      else if vs.all PyValue.isTensorClass then .ok .TENSORS
      else if vs.all PyValue.isSparseClass then .ok .SPARSE_TENSORS
      else if vs.all PyValue.isGraphClass then .ok .GRAPHS
      else if vs.all PyValue.isTypeClass then .ok .TYPE_PROTOS
      else .error .unmatchedIterable

/-- An `Attr` object: its class fixes the declared discriminant
(`_attribute_proto_type_int`) and `_value` holds either a concrete payload or
a `_Ref` — the referenced (possibly itself referencing) attribute plus the
bound name it carries in the outer scope. -/
inductive Attr where
  | concrete (tag : AttrTag) (p : PyValue)
  | ref (tag : AttrTag) (target : Attr) (outerName : String)

/-- The property `Attr.value`: implicitly dereference `_Ref`s — `_deref` walks the chain
(finite by construction: each link is an attribute of a strictly enclosing
scope) until a concrete payload is reached. -/
def Attr.value : Attr → PyValue
  | .concrete _ p => p
  | .ref _ t _ => t.value

/-- The stored `_value` argument of `Attr.__init__`: a literal payload or a
reference. -/
inductive AttrStored where
  | lit (p : PyValue)
  | ref (target : Attr) (outerName : String)

/-- Construction failures: a `_deduce_type` error propagating out of
`_validate`, or the deduced kind disagreeing with the declared discriminant
(`TypeError` in the source; `AttributeKindMismatch` in the spec's
vocabulary). -/
inductive AttrError where
  | deduceFailed (e : DeduceError)
  | kindMismatch
deriving DecidableEq, Repr

/-- Construction, `Attr.__init__` plus `Attr._validate`: store the payload or reference, then
require `_deduce_type(self.value)` (dereferenced!) to equal the declared
discriminant. -/
def Attr.make (tag : AttrTag) (s : AttrStored) : Except AttrError Attr :=
  let a : Attr :=
    match s with
    | .lit p => .concrete tag p
    | .ref t n => .ref tag t n
  match deduceType a.value with
  | .error e => .error (.deduceFailed e)
  | .ok t => if t = tag then .ok a else .error .kindMismatch

/-- The serialized attribute record: its name, its discriminant, the
formal-parameter marker (`ref_attr_name`) if any, and the literal payload if
any. -/
structure AttributeProto where
  name : String
  type : AttrTag
  refAttrName : Option String
  payload : Option PyValue

/-- Serialization failures: `AttrGraph._to_onnx_deref` demanding the
`build_subgraph` callback (`RequiresCallback` in the spec's vocabulary), and
the base `Attr._to_onnx_deref` of discriminants no concrete class
implements. -/
inductive SerError where
  | graphCallback
  | notImplemented
deriving DecidableEq, Repr

/-- Python's `float()` applied by `AttrFloat32`/`AttrFloat32s`: an `int`
becomes the float of the same value, a float is unchanged (non-numeric
payloads never reach this conversion in a validated attribute). -/
def pyFloat : PyValue → PyValue
  | .int n => .float (n : Rat)
  | v => v

/-- Text encoding, `str.encode`: the onnx side stores text attributes as bytes. -/
def encodeStr : PyValue → PyValue
  | .str s => .bytes s
  | v => v

/-- The `_to_onnx_deref` implementations, by declared discriminant:
`AttrFloat32` coerces an int payload with `float()`; `AttrInt64` and the
protobuf-payload kinds emit the payload as is; `AttrString`/`AttrStrings`
byte-encode; `AttrFloat32s` maps `float()` over the elements;
`AttrInt64s` emits the tuple as is; `AttrGraph` raises, demanding the
subgraph-build callback; the remaining discriminants have no implementing
class, so the base method raises `NotImplementedError`. -/
def toOnnxDeref (tag : AttrTag) (p : PyValue) (key : String) :
    Except SerError AttributeProto :=
  match tag with
  | .FLOAT => .ok ⟨key, .FLOAT, .none, .some (pyFloat p)⟩
  | .INT => .ok ⟨key, .INT, .none, .some p⟩
  | .STRING => .ok ⟨key, .STRING, .none, .some (encodeStr p)⟩
  | .TENSOR => .ok ⟨key, .TENSOR, .none, .some p⟩
  | .GRAPH => .error .graphCallback
  | .TYPE_PROTO => .ok ⟨key, .TYPE_PROTO, .none, .some p⟩
  | .FLOATS =>
      match p with
      | .tuple vs => .ok ⟨key, .FLOATS, .none, .some (.tuple (vs.map pyFloat))⟩
      | _ => .error .notImplemented
  | .INTS => .ok ⟨key, .INTS, .none, .some p⟩
  | .STRINGS =>
      match p with
      | .tuple vs => .ok ⟨key, .STRINGS, .none, .some (.tuple (vs.map encodeStr))⟩
      | _ => .error .notImplemented
  | .TENSORS => .ok ⟨key, .TENSORS, .none, .some p⟩
  | .SPARSE_TENSOR => .error .notImplemented
  | .SPARSE_TENSORS => .error .notImplemented
  | .GRAPHS => .error .notImplemented
  | .TYPE_PROTOS => .error .notImplemented

/-- Serialization, `Attr._to_onnx`: a referencing attribute serializes the target (to obtain
its kind tag) and emits `AttributeProto(name=key, ref_attr_name=outer_name,
type=parent_type)` with no payload; a concrete attribute defers to
`_to_onnx_deref`. -/
def Attr.toOnnx : Attr → String → Except SerError AttributeProto
  | .concrete tag p, key => toOnnxDeref tag p key
  | .ref _ t n, key =>
      (t.toOnnx key).map fun parent => ⟨key, parent.type, .some n, .none⟩

/-- Claim C5: dereferencing walks the reference chain — a concrete attribute
yields its payload, a referencing attribute yields its target's (recursively
dereferenced) value; serializing a referencing attribute emits only the
attribute name, the outer bound name and the kind obtained by serializing the
target and keeping its kind, with no payload; serializing a concrete
attribute defers to the kind's literal serializer, whose successful records
carry a payload and no formal-parameter marker. -/
theorem attr_ref_serialization :
    (∀ (tag : AttrTag) (p : PyValue), (Attr.concrete tag p).value = p) ∧
    (∀ (tag : AttrTag) (t : Attr) (n : String),
      (Attr.ref tag t n).value = t.value) ∧
    (∀ (tag : AttrTag) (t : Attr) (n key : String) (r : AttributeProto),
      t.toOnnx key = .ok r →
      (Attr.ref tag t n).toOnnx key = .ok ⟨key, r.type, .some n, .none⟩) ∧
    (∀ (tag : AttrTag) (p : PyValue) (key : String),
      (Attr.concrete tag p).toOnnx key = toOnnxDeref tag p key) ∧
    (∀ (tag : AttrTag) (p : PyValue) (key : String) (r : AttributeProto),
      toOnnxDeref tag p key = .ok r →
      r.refAttrName = .none ∧ r.payload.isSome = true) := by
  refine ⟨fun _ _ => rfl, fun _ _ _ => rfl, ?_, fun _ _ _ => rfl, ?_⟩
  · intro tag t n key r h
    simp [Attr.toOnnx, h, Except.map]
  · intro tag p key r h
    cases tag <;> cases p <;> simp [toOnnxDeref] at h <;> subst h <;> exact ⟨rfl, rfl⟩

/-- Witness for `attr_ref_serialization`: a three-level chain whose outer
concrete attribute is `Float(5/2)` bound as "alpha"; serializing the
innermost reference yields the formal-parameter marker with the Float kind
and no payload. -/
theorem attr_ref_serialization_witness :
    ((Attr.ref .FLOAT (Attr.concrete .FLOAT (.float (5 / 2))) "alpha").toOnnx "x" =
      .ok ⟨"x", .FLOAT, .some "alpha", .none⟩) ∧
    ((Attr.ref .FLOAT
        (Attr.ref .FLOAT (Attr.concrete .FLOAT (.float (5 / 2))) "alpha")
        "beta").toOnnx "x" =
      .ok ⟨"x", .FLOAT, .some "beta", .none⟩) :=
  ⟨attr_ref_serialization.2.2.1 .FLOAT (Attr.concrete .FLOAT (.float (5 / 2)))
      "alpha" "x" ⟨"x", .FLOAT, .none, .some (.float (5 / 2))⟩ rfl,
    attr_ref_serialization.2.2.1 .FLOAT
      (Attr.ref .FLOAT (Attr.concrete .FLOAT (.float (5 / 2))) "alpha")
      "beta" "x" ⟨"x", .FLOAT, .some "alpha", .none⟩ rfl⟩

/-- Claim C6: an `AttrInt64s` built from a non-empty homogeneous integer
iterable validates and serializes to the int-list discriminant with the
elements in order; any declared discriminant rejects an empty iterable at
construction; and a payload whose deduced kind disagrees with the declared
discriminant is rejected at construction. -/
theorem attr_int64s_construction :
    (∀ (ns : List Int) (key : String), ns ≠ [] →
      Attr.make .INTS (.lit (.tuple (ns.map .int))) =
        .ok (.concrete .INTS (.tuple (ns.map .int))) ∧
      (Attr.concrete .INTS (.tuple (ns.map .int))).toOnnx key =
        .ok ⟨key, .INTS, .none, .some (.tuple (ns.map .int))⟩) ∧
    (∀ tag : AttrTag,
      Attr.make tag (.lit (.tuple [])) = .error (.deduceFailed .emptyIterable)) ∧
    (∀ (vs : List PyValue) (tag t : AttrTag),
      deduceType (.tuple vs) = .ok t → t ≠ tag →
      Attr.make tag (.lit (.tuple vs)) = .error .kindMismatch) := by
  refine ⟨?_, ?_, ?_⟩
  · intro ns key h
    have hne : (ns.map PyValue.int).isEmpty = false := by
      cases ns with
      | nil => exact absurd rfl h
      | cons a as => rfl
    have hall : (ns.map PyValue.int).all PyValue.isIntegralClass = true := by
      rw [List.all_eq_true]
      rintro v hv
      rw [List.mem_map] at hv
      rcases hv with ⟨n, _, rfl⟩
      rfl
    constructor
    · simp [Attr.make, Attr.value, deduceType, hne, hall]
    · rfl
  · intro tag
    simp [Attr.make, Attr.value, deduceType]
  · intro vs tag t hd hne
    simp [Attr.make, Attr.value, hd, hne]

/-- Witness for `attr_int64s_construction` at the list `[1, 2]` and at the
mixed pair `[1, 2.5]` declared as int-list. -/
theorem attr_int64s_construction_witness :
    (([1, 2] : List Int) ≠ []) ∧
    (Attr.make .INTS (.lit (.tuple ([1, 2].map .int))) =
        .ok (.concrete .INTS (.tuple ([1, 2].map .int))) ∧
      (Attr.concrete .INTS (.tuple ([1, 2].map .int))).toOnnx "k" =
        .ok ⟨"k", .INTS, .none, .some (.tuple ([1, 2].map .int))⟩) ∧
    Attr.make .INTS (.lit (.tuple [.int 1, .float (5 / 2)])) =
      .error .kindMismatch :=
  ⟨by simp,
    attr_int64s_construction.1 [1, 2] "k" (by simp),
    attr_int64s_construction.2.2 [.int 1, .float (5 / 2)] .INTS .FLOATS rfl
      (by decide)⟩

/-- Claim C10: an `AttrFloat32s` built from a non-empty iterable of Python
reals containing a non-integer validates (ints count as reals, so the deduced
kind is the float-list kind) and serializes by converting every element with
`float()`, preserving order; a non-empty all-integer iterable instead deduces
to the int-list kind, because the `Integral` candidate is tried before
`Real`. -/
theorem attr_float32s_mixed :
    (∀ (vs : List PyValue) (key : String),
      vs ≠ [] →
      (∀ v ∈ vs, v.isRealClass = true) →
      (∃ v ∈ vs, v.isIntegralClass = false) →
      Attr.make .FLOATS (.lit (.tuple vs)) = .ok (.concrete .FLOATS (.tuple vs)) ∧
      (Attr.concrete .FLOATS (.tuple vs)).toOnnx key =
        .ok ⟨key, .FLOATS, .none, .some (.tuple (vs.map pyFloat))⟩) ∧
    (∀ ns : List Int, ns ≠ [] →
      deduceType (.tuple (ns.map .int)) = .ok .INTS) := by
  refine ⟨?_, ?_⟩
  · intro vs key hne hreal hsomefloat
    have hempty : vs.isEmpty = false := by
      cases vs with
      | nil => exact absurd rfl hne
      | cons a as => rfl
    have hnotint : vs.all PyValue.isIntegralClass = false := by
      rcases hsomefloat with ⟨v, hv, hvi⟩
      rw [Bool.eq_false_iff]
      intro hall
      rw [List.all_eq_true] at hall
      rw [hall v hv] at hvi
      exact Bool.noConfusion hvi
    have hallreal : vs.all PyValue.isRealClass = true := List.all_eq_true.mpr hreal
    constructor
    · simp [Attr.make, Attr.value, deduceType, hempty, hnotint, hallreal]
    · rfl
  · intro ns h
    have hne : (ns.map PyValue.int).isEmpty = false := by
      cases ns with
      | nil => exact absurd rfl h
      | cons a as => rfl
    have hall : (ns.map PyValue.int).all PyValue.isIntegralClass = true := by
      rw [List.all_eq_true]
      rintro v hv
      rw [List.mem_map] at hv
      rcases hv with ⟨n, _, rfl⟩
      rfl
    simp [deduceType, hne, hall]

/-- Witness for `attr_float32s_mixed` at the mixed list `[1, 2.5]` and the
all-integer list `[3]`. -/
theorem attr_float32s_mixed_witness :
    (([PyValue.int 1, PyValue.float (5 / 2)] ≠ []) ∧
      (∀ v ∈ [PyValue.int 1, PyValue.float (5 / 2)], v.isRealClass = true) ∧
      (∃ v ∈ [PyValue.int 1, PyValue.float (5 / 2)], v.isIntegralClass = false) ∧
      (([3] : List Int) ≠ [])) ∧
    (Attr.make .FLOATS (.lit (.tuple [.int 1, .float (5 / 2)])) =
        .ok (.concrete .FLOATS (.tuple [.int 1, .float (5 / 2)])) ∧
      (Attr.concrete .FLOATS (.tuple [.int 1, .float (5 / 2)])).toOnnx "k" =
        .ok ⟨"k", .FLOATS, .none,
          .some (.tuple [.float 1, .float (5 / 2)])⟩) ∧
    deduceType (.tuple ([3].map .int)) = .ok .INTS := by
  refine ⟨⟨by simp, by decide, ?_, by simp⟩, ?_, ?_⟩
  · exact ⟨.float (5 / 2), by simp, rfl⟩
  · have := (attr_float32s_mixed.1 [.int 1, .float (5 / 2)] "k" (by simp)
      (by decide) ⟨.float (5 / 2), by simp, rfl⟩)
    exact this
  · exact attr_float32s_mixed.2 [3] (by simp)
